import Mathlib

/-!
Verification development for the ClimeScope ESP32 firmware
(`Weather/src/main.cpp`).  The firmware's pure computations — the
air-quality classifier, the outbound JSON payload construction, the
ad-hoc substring extraction of the prediction response, the Wi-Fi
retry loop and the dashboard page generation — are embedded as
executable Lean functions over `List Char` / `String`, with the C
`float` values modelled as exact rationals (ℚ) and failed (NaN)
sensor reads modelled as `Option.none`.
-/

namespace ClimeScope

/-! ### Arduino `String` primitives

`firstMatch pat l` is the index of the leftmost occurrence of `pat`
in `l` (the semantics of `String::indexOf`), `indexOfFrom` adds the
`fromIndex` argument, and `substrA` is `String::substring` restricted
to the in-range, left-≤-right uses the firmware makes (with the
right end clamped to the length, as the Arduino implementation does).
-/

def firstMatch (pat : List Char) : List Char → Option Nat
  | [] => none
  | c :: rest =>
    if pat.isPrefixOf (c :: rest) then some 0
    else (firstMatch pat rest).map (· + 1)

def indexOfFrom (s pat : List Char) (start : Nat) : Option Nat :=
  (firstMatch pat (s.drop start)).map (· + start)

def substrA (s : List Char) (a b : Nat) : List Char :=
  (s.drop a).take (b - a)

/-- The whitespace class of C `isspace`, used by `String::trim`. -/
def isSpaceA (c : Char) : Bool :=
  c == ' ' || c == '\t' || c == '\n' || c == '\x0b' || c == '\x0c' || c == '\r'

/-- `String::trim`: strip `isspace` characters from both ends. -/
def trimA (l : List Char) : List Char :=
  ((l.dropWhile isSpaceA).reverse.dropWhile isSpaceA).reverse

def digitsToNat (l : List Char) : Nat :=
  l.foldl (fun acc c => acc * 10 + (c.toNat - 48)) 0

/-- Exponent part accepted by `strtod` after `e`/`E`: optional sign and
digits; an absent or empty digit string contributes exponent 0
(`strtod` then backs off to the mantissa alone). -/
def expPart (r : List Char) : Int :=
  let (es, r2) : Int × List Char :=
    match r with
    | '-' :: t2 => (-1, t2)
    | '+' :: t2 => (1, t2)
    | _ => (1, r)
  let ds := r2.takeWhile Char.isDigit
  if ds = [] then 0 else es * (digitsToNat ds : Int)

/-- The scan of Arduino `String::toFloat` (an `atof`/`strtod`-style
parse of the longest decimal numeric prefix; the hexadecimal /
infinity / NaN forms, which the firmware's numeric payloads never
use, are omitted).  Returns `none` when no digits are found,
otherwise the sign, the mantissa digits (integer and fraction parts
concatenated) read as a natural number, the number of fraction
digits, and the decimal exponent. -/
def toFloatCore (l : List Char) : Option (Bool × Nat × Nat × Int) :=
  let l1 := l.dropWhile isSpaceA
  let (neg, l2) : Bool × List Char :=
    match l1 with
    | '-' :: r => (true, r)
    | '+' :: r => (false, r)
    | _ => (false, l1)
  let intDigits := l2.takeWhile Char.isDigit
  let l3 := l2.drop intDigits.length
  let (fracDigits, l4) : List Char × List Char :=
    match l3 with
    | '.' :: r => (r.takeWhile Char.isDigit, r.drop (r.takeWhile Char.isDigit).length)
    | _ => ([], l3)
  if intDigits = [] ∧ fracDigits = [] then none
  else
    let e : Int :=
      match l4 with
      | 'e' :: r => expPart r
      | 'E' :: r => expPart r
      | _ => 0
    some (neg, digitsToNat (intDigits ++ fracDigits), fracDigits.length, e)

/-- Arduino `String::toFloat` as an exact rational: the value of the
parsed numeric prefix, or 0 when there is none (`atof`'s failure
value). -/
def toFloatA (l : List Char) : ℚ :=
  match toFloatCore l with
  | none => 0
  | some (neg, m, f, e) =>
    let mag : ℚ := (m : ℚ) / (10 : ℚ) ^ f
    let signed : ℚ := if neg then -mag else mag
    if e < 0 then signed / (10 : ℚ) ^ e.natAbs
    else signed * (10 : ℚ) ^ e.natAbs

/-! ### `printf` fixed-point formatting (`%.1f`, `%.2f`) -/

/-- Round a nonnegative rational to the nearest integer, ties to even
(the rounding of a correctly-rounding `printf` on an exactly
representable value). -/
def roundHalfEven (y : ℚ) : Int :=
  let f := Int.floor y
  let r := y - (f : ℚ)
  if r < 1 / 2 then f
  else if 1 / 2 < r then f + 1
  else if f % 2 = 0 then f else f + 1

def padZeros (d : Nat) (s : String) : String :=
  String.mk (List.replicate (d - s.length) '0') ++ s

/-- `printf "%.df"` of a rational: sign, integer part, `.`, and exactly
`d` fraction digits (zero-padded).  A negative value keeps its sign
even when it rounds to zero, as `printf` does. -/
def fmtFixed (d : Nat) (x : ℚ) : String :=
  let n := (roundHalfEven (abs x * (10 : ℚ) ^ d)).toNat
  let ip := n / 10 ^ d
  let fp := n % 10 ^ d
  (if x < 0 then "-" else "") ++ toString ip ++ "." ++ padZeros d (toString fp)

/-! ### Data model -/

/-- The four process-wide prediction globals of `main.cpp`
(`predictedAQI`, `predictedHumidity`, `predictedTemperature`,
`predictionAvailable`). -/
structure PredictionState where
  predictedAQI : ℚ
  predictedHumidity : ℚ
  predictedTemperature : ℚ
  predictionAvailable : Bool
deriving DecidableEq

/-- One acquisition: `dht.readTemperature()`, `dht.readHumidity()`
(`none` models a NaN read) and `analogRead(MQ135PIN)`. -/
structure SensorSample where
  temperature : Option ℚ
  humidity : Option ℚ
  gasRaw : Int
deriving DecidableEq

/-- The observable shape of the outbound request built by
`getPredictions`: `http.begin(API_ENDPOINT)`,
`http.addHeader("Content-Type", "application/json")`,
`http.POST(jsonBuffer)`. -/
structure HttpRequest where
  url : String
  method : String
  contentType : String
  body : String
deriving DecidableEq

def API_ENDPOINT : String := "http://10.38.192.228:5000/predict"

/-! ### Air-quality classifier (`interpretAirQuality`, main.cpp 47–53) -/

def interpretAirQuality (raw : ℚ) : String :=
  if raw < 150 then "Excellent"
  else if raw < 300 then "Good"
  else if raw < 450 then "Fair"
  else if raw < 600 then "Poor"
  else "Very Poor"

/-! ### Dashboard Server (`handleClient`, main.cpp 55–527)

The byte stream written to the client is modelled at the granularity
of emitted pieces: `Emit.text` carries a formatted value or a header
line whose exact content the specification talks about, `Emit.raw n`
stands for the `n`-th fixed HTML/CSS raw-literal block of `main.cpp`
(its multi-hundred-line content is constant and never depends on any
program state), and `Emit.close` records the final `client.stop()`.
-/

inductive Emit where
  | text : String → Emit
  | raw : Nat → Emit
  | close : Emit
deriving DecidableEq

def crlfcrlf : List Char := ['\r', '\n', '\r', '\n']

/-- The request-accumulation loop of `handleClient` (main.cpp 58–71):
append one available byte at a time, stopping as soon as the
accumulated string ends in `\r\n\r\n`; otherwise it runs until the
input (connection/timeout budget) is exhausted.  The accumulated
request is never inspected afterwards. -/
def readRequestGo (acc : List Char) : List Char → List Char
  | [] => acc
  | c :: rest =>
    let acc2 := acc ++ [c]
    if crlfcrlf.isSuffixOf acc2 then acc2 else readRequestGo acc2 rest

def readRequest (input : List Char) : List Char :=
  readRequestGo [] input

/-- The generated page body (main.cpp 93–522): fixed chrome blocks
interleaved with the `printf`-formatted live values, then either the
three prediction cards (when `predictionAvailable`) or the loading
placeholder.  A NaN reading of either climate value zeroes both
(main.cpp 79–83). -/
def dashboardDoc (s : SensorSample) (ps : PredictionState) : List Emit :=
  let th : ℚ × ℚ :=
    if s.humidity.isNone || s.temperature.isNone then (0, 0)
    else (s.temperature.getD 0, s.humidity.getD 0)
  let temperature := th.1
  let humidity := th.2
  let mq135Voltage : ℚ := (s.gasRaw : ℚ) * ((33 / 10) / 4095)
  [Emit.raw 0, Emit.text (fmtFixed 1 temperature),
   Emit.raw 1, Emit.text (fmtFixed 1 humidity),
   Emit.raw 2, Emit.text (toString s.gasRaw), Emit.text (fmtFixed 2 mq135Voltage),
   Emit.raw 3, Emit.text (interpretAirQuality (s.gasRaw : ℚ)), Emit.raw 4]
  ++ (if ps.predictionAvailable then
        [Emit.raw 5, Emit.text (fmtFixed 2 ps.predictedTemperature),
         Emit.raw 6, Emit.text (fmtFixed 2 ps.predictedHumidity),
         Emit.raw 7, Emit.text (fmtFixed 2 ps.predictedAQI),
         Emit.raw 8, Emit.text (interpretAirQuality ps.predictedAQI), Emit.raw 9]
      else [Emit.raw 10])
  ++ [Emit.raw 11]

def httpHeaderLines : List Emit :=
  [Emit.text "HTTP/1.1 200 OK",
   Emit.text "Content-Type: text/html; charset=UTF-8",
   Emit.text "Connection: close",
   Emit.text ""]

/-- `handleClient` (main.cpp 55–527): read (and discard) the request,
acquire a fresh sample, and write status line, the two headers, a
blank line, the dashboard document, then close the connection.  It
only reads the prediction globals, so the state component is returned
unchanged. -/
def handleClient (input : List Char) (s : SensorSample) (ps : PredictionState) :
    PredictionState × List Emit :=
  let _request := readRequest input
  (ps, httpHeaderLines ++ dashboardDoc s ps ++ [Emit.close])

/-! ### Prediction Client (`getPredictions`, main.cpp 530–626) -/

def markerKey : List Char := "\"next_day_predictions\":".toList
def aqiKey : List Char := "\"aqi\":".toList
def humidityKey : List Char := "\"humidity\":".toList
def temperatureKey : List Char := "\"temperature\":".toList

/-- Delimiter search of the extraction code: the index of the first
`d1` at or after `start`; if there is none, the first `d2`; if
neither occurs, the section length (the `-1` handed to
`String::substring` is clamped to the length). -/
def endAfter (s : List Char) (d1 d2 : Char) (start : Nat) : Nat :=
  match indexOfFrom s [d1] start with
  | some i => i
  | none =>
    match indexOfFrom s [d2] start with
    | some i => i
    | none => s.length

/-- The three trimmed value texts cut out of a response body by
main.cpp 570–614, or `none` when the marker or any of the three keys
is not found.  `aqi` and `humidity` are cut at the first comma,
falling back to the first closing brace; `temperature` at the first
closing brace, falling back to the first comma.  Key offsets 6, 11
and 14 are the literal key lengths. -/
def extractTexts (response : List Char) :
    Option (List Char × List Char × List Char) :=
  match indexOfFrom response markerKey 0 with
  | none => none
  | some predStart =>
    let predSection := response.drop predStart
    match indexOfFrom predSection aqiKey 0, indexOfFrom predSection humidityKey 0,
        indexOfFrom predSection temperatureKey 0 with
    | some aqiIndex, some humidityIndex, some temperatureIndex =>
      let aqiStart := aqiIndex + 6
      let aqiStr := trimA (substrA predSection aqiStart (endAfter predSection ',' '\x7d' aqiStart))
      let humStart := humidityIndex + 11
      let humStr := trimA (substrA predSection humStart (endAfter predSection ',' '\x7d' humStart))
      let tempStart := temperatureIndex + 14
      let tempStr := trimA (substrA predSection tempStart (endAfter predSection '\x7d' ',' tempStart))
      some (aqiStr, humStr, tempStr)
    | _, _, _ => none

/-- Response handling of main.cpp 570–620: on a successful extraction
all three globals are overwritten with `toFloat` of the cut texts and
`predictionAvailable` is set; otherwise the state is left untouched. -/
def applyResponse (response : List Char) (ps : PredictionState) : PredictionState :=
  match extractTexts response with
  | some (aqiStr, humStr, tempStr) =>
    { predictedAQI := toFloatA aqiStr
      predictedHumidity := toFloatA humStr
      predictedTemperature := toFloatA tempStr
      predictionAvailable := true }
  | none => ps

/-- The full `snprintf` format of main.cpp 553–555 (before the buffer
bound): `{"temperature": %.2f, "humidity": %.2f, "aqi": %d}`. -/
def jsonPayloadFull (t h : ℚ) (aqi : Int) : String :=
  "\x7b\"temperature\": " ++ fmtFixed 2 t ++ ", \"humidity\": " ++ fmtFixed 2 h
    ++ ", \"aqi\": " ++ toString aqi ++ "\x7d"

/-- The body actually posted: `snprintf` into `char jsonBuffer[128]`
keeps at most 127 characters. -/
def jsonPayload (t h : ℚ) (aqi : Int) : String :=
  String.mk ((jsonPayloadFull t h aqi).toList.take 127)

/-- `getPredictions` (main.cpp 530–626).  Inputs supplied by the
environment: the link status, the fresh sensor sample, and the HTTP
response (status code and body) the endpoint would return to the
posted payload.  Returns the new prediction state and the request
issued, `none` when the cycle aborts before `http.POST`. -/
def getPredictions (wifiConnected : Bool) (s : SensorSample)
    (status : Int) (response : List Char) (ps : PredictionState) :
    PredictionState × Option HttpRequest :=
  if wifiConnected then
    match s.temperature, s.humidity with
    | some t, some h =>
      let req : HttpRequest :=
        { url := API_ENDPOINT
          method := "POST"
          contentType := "application/json"
          body := jsonPayload t h s.gasRaw }
      if 0 < status then (applyResponse response ps, some req)
      else (ps, some req)
    | _, _ => (ps, none)
  else (ps, none)

/-! ### Connectivity Manager (`connectToWiFi`, main.cpp 26–45)

The link is modelled as the sequence of results of the successive
`WiFi.status()` calls: `st k` is the `k`-th query (0-based).
-/

/-- The retry loop: query; exit if connected; otherwise delay one
second and retry while `retryCount < 20` (`fuel` is the number of
remaining delays; when it is exhausted the condition's status query
still runs but the loop exits either way).  Returns the number of
queries the loop made. -/
def wifiLoop (st : Nat → Bool) : Nat → Nat → Nat
  | p, 0 => p + 1
  | p, fuel + 1 => if st p then p + 1 else wifiLoop st (p + 1) fuel

/-- Outcome of `connectToWiFi`: how many times the link status was
queried, how many one-second delays ran, and whether `server.begin()`
was reached. -/
structure ConnectResult where
  statusPolls : Nat
  delaysUsed : Nat
  serverStarted : Bool
deriving DecidableEq

/-- `connectToWiFi`: the retry loop followed by one further status
query (main.cpp 37) that alone decides whether the listening socket
is started. -/
def connectToWiFi (st : Nat → Bool) : ConnectResult :=
  let loopPolls := wifiLoop st 0 20
  { statusPolls := loopPolls + 1
    delaysUsed := loopPolls - 1
    serverStarted := st loopPolls }

/-! ### Specification-side characterisations

Independent reformulations of the extraction delimiters, used to give
the extraction theorems content beyond the code definitions: the cut
text is characterised by membership and `takeWhile` instead of by
`indexOf` and `substring`.
-/

/-- The text the specification sentence describes: from `start` up to
the next comma or closing brace, *whichever occurs first* (to the end
if neither occurs). -/
def fieldTextFirstDelim (sec : List Char) (start : Nat) : List Char :=
  (sec.drop start).takeWhile (fun c => !(c == ',' || c == '\x7d'))

/-- The delimiter rule the code implements, characterised without
`indexOf`: everything before the first `d1` if `d1` occurs anywhere
in the rest of the section, else everything before the first `d2` if
`d2` occurs, else the whole rest. -/
def specTextTwo (d1 d2 : Char) (sec : List Char) (start : Nat) : List Char :=
  let tail := sec.drop start
  if d1 ∈ tail then tail.takeWhile (fun c => c ≠ d1)
  else if d2 ∈ tail then tail.takeWhile (fun c => c ≠ d2)
  else tail

/-! ### Concrete test fixtures -/

def psZero : PredictionState := ⟨0, 0, 0, false⟩

/-- A non-trivial previously-committed state, to observe staleness. -/
def psStale : PredictionState := ⟨7, 8, 9, true⟩

def sampleOk : SensorSample := ⟨some 25, some 60, 500⟩

/-- A sample whose temperature read came back NaN. -/
def sampleNaN : SensorSample := ⟨none, some 60, 400⟩

/-- The canonical response body documented in the firmware comment. -/
def canonicalBody : List Char :=
  "\x7b\"next_day_predictions\":\x7b\"aqi\":104.18,\"humidity\":73.21,\"temperature\":31.71\x7d\x7d".toList

/-- The canonical body with the `aqi` field removed. -/
def missingAqiBody : List Char :=
  "\x7b\"next_day_predictions\":\x7b\"humidity\":73.21,\"temperature\":31.71\x7d\x7d".toList

/-- The canonical fields in a different order (`temperature` first). -/
def reorderedBody : List Char :=
  "\x7b\"next_day_predictions\":\x7b\"temperature\":31.71,\"aqi\":104.18,\"humidity\":73.21\x7d\x7d".toList

/-- The canonical body with non-numeric text in place of the aqi value. -/
def nonNumericBody : List Char :=
  "\x7b\"next_day_predictions\":\x7b\"aqi\":oops,\"humidity\":73.21,\"temperature\":31.71\x7d\x7d".toList

/-- The request the canonical cycle sends. -/
def reqCanonical : HttpRequest :=
  { url := API_ENDPOINT
    method := "POST"
    contentType := "application/json"
    body := jsonPayload 25 60 500 }

/-! ### Helper lemmas -/

theorem firstMatch_single_none (c : Char) (l : List Char) :
    firstMatch [c] l = none ↔ c ∉ l := by
  induction l with
  | nil => simp [firstMatch]
  | cons a l ih =>
    by_cases h : c = a
    · subst h
      simp [firstMatch, List.isPrefixOf]
    · simp [firstMatch, List.isPrefixOf, h, Option.map_eq_none', ih, Ne.symm h]

theorem firstMatch_single_mem (c : Char) (l : List Char) (j : Nat)
    (h : firstMatch [c] l = some j) : c ∈ l := by
  by_contra hmem
  rw [← firstMatch_single_none c l] at hmem
  rw [hmem] at h
  exact Option.noConfusion h

theorem firstMatch_single_take (c : Char) (l : List Char) (j : Nat)
    (h : firstMatch [c] l = some j) :
    l.take j = l.takeWhile (fun x => x ≠ c) := by
  induction l generalizing j with
  | nil => simp [firstMatch] at h
  | cons a l ih =>
    by_cases hc : c = a
    · subst hc
      simp [firstMatch, List.isPrefixOf] at h
      subst h
      simp [List.takeWhile]
    · simp only [firstMatch, List.isPrefixOf, Bool.and_true, beq_iff_eq,
        if_neg hc, Option.map_eq_some'] at h
      obtain ⟨j2, hj2, rfl⟩ := h
      simp [List.takeWhile, Ne.symm hc, ih j2 hj2]

theorem substrA_endAfter (sec : List Char) (d1 d2 : Char) (start : Nat) :
    substrA sec start (endAfter sec d1 d2 start) = specTextTwo d1 d2 sec start := by
  unfold endAfter specTextTwo substrA indexOfFrom
  cases h1 : firstMatch [d1] (sec.drop start) with
  | some j =>
    have hmem := firstMatch_single_mem d1 (sec.drop start) j h1
    simp only [Option.map_some', Nat.add_sub_cancel, if_pos hmem]
    exact firstMatch_single_take d1 (sec.drop start) j h1
  | none =>
    have hmem1 : d1 ∉ sec.drop start := (firstMatch_single_none d1 (sec.drop start)).mp h1
    cases h2 : firstMatch [d2] (sec.drop start) with
    | some j =>
      have hmem2 := firstMatch_single_mem d2 (sec.drop start) j h2
      simp only [Option.map_some', Option.map_none', Nat.add_sub_cancel,
        if_neg hmem1, if_pos hmem2]
      exact firstMatch_single_take d2 (sec.drop start) j h2
    | none =>
      have hmem2 : d2 ∉ sec.drop start := (firstMatch_single_none d2 (sec.drop start)).mp h2
      simp only [Option.map_none', if_neg hmem1, if_neg hmem2]
      rw [← List.length_drop]
      exact List.take_length (sec.drop start)

/-- Evaluation bridge for `toFloatA` on a nonnegative exponent-free
parse (Mathlib's `Rat` arithmetic is not kernel-reducible, so ground
facts go through `toFloatCore`, which is). -/
theorem toFloatA_eval_pos (l : List Char) (m f : Nat)
    (h : toFloatCore l = some (false, m, f, 0)) :
    toFloatA l = (m : ℚ) / (10 : ℚ) ^ f := by
  unfold toFloatA
  rw [h]
  norm_num

theorem toFloatA_eval_none (l : List Char) (h : toFloatCore l = none) :
    toFloatA l = 0 := by
  unfold toFloatA
  rw [h]

/-- Evaluation bridge for `fmtFixed` at a nonnegative value whose
scaling by `10 ^ d` is exact. -/
theorem fmtFixed_eval (d n : Nat) (x : ℚ) (h0 : 0 ≤ x)
    (h : x * (10 : ℚ) ^ d = (n : ℚ)) :
    fmtFixed d x =
      (if x < 0 then "-" else "") ++ toString (n / 10 ^ d) ++ "." ++
        padZeros d (toString (n % 10 ^ d)) := by
  unfold fmtFixed roundHalfEven
  rw [abs_of_nonneg h0, h]
  rw [show ((n : ℚ)) = (((n : Int) : ℚ)) by push_cast; ring, Int.floor_intCast]
  norm_num

theorem wifiLoop_le (st : Nat → Bool) :
    ∀ fuel p, wifiLoop st p fuel ≤ p + fuel + 1 := by
  intro fuel
  induction fuel with
  | zero =>
    intro p
    simp [wifiLoop]
  | succ f ih =>
    intro p
    rw [wifiLoop]
    split
    · omega
    · have := ih (p + 1)
      omega

/-- When the marker or any of the three key substrings is missing,
the extraction finds nothing. -/
theorem extractTexts_none_of_missing (response : List Char)
    (h : indexOfFrom response markerKey 0 = none ∨
      ∃ p, indexOfFrom response markerKey 0 = some p ∧
        (indexOfFrom (response.drop p) aqiKey 0 = none ∨
         indexOfFrom (response.drop p) humidityKey 0 = none ∨
         indexOfFrom (response.drop p) temperatureKey 0 = none)) :
    extractTexts response = none := by
  rcases h with hm | ⟨p, hp, hkey⟩
  · unfold extractTexts
    rw [hm]
  · simp only [extractTexts, hp]
    cases h1 : indexOfFrom (response.drop p) aqiKey 0 with
    | none =>
      cases h2 : indexOfFrom (response.drop p) humidityKey 0 <;>
        cases h3 : indexOfFrom (response.drop p) temperatureKey 0 <;> rfl
    | some a =>
      cases h2 : indexOfFrom (response.drop p) humidityKey 0 with
      | none =>
        cases h3 : indexOfFrom (response.drop p) temperatureKey 0 <;> rfl
      | some b =>
        cases h3 : indexOfFrom (response.drop p) temperatureKey 0 with
        | none => rfl
        | some c => simp_all

/-! ### Claim theorems -/

/-- C1: whenever a prediction cycle does not reach a fully successful
extraction — the link is down, a sensor value is NaN, the status code
is non-positive, the marker is absent from the body, or any of the
three key substrings is absent from the section after the marker —
every field of the prediction state is left exactly as it was. -/
theorem getPredictions_atomic_on_failure (wifi : Bool) (s : SensorSample)
    (status : Int) (response : List Char) (ps : PredictionState)
    (hfail : wifi = false ∨ s.temperature = none ∨ s.humidity = none ∨ status ≤ 0 ∨
      indexOfFrom response markerKey 0 = none ∨
      (∃ p, indexOfFrom response markerKey 0 = some p ∧
        (indexOfFrom (response.drop p) aqiKey 0 = none ∨
         indexOfFrom (response.drop p) humidityKey 0 = none ∨
         indexOfFrom (response.drop p) temperatureKey 0 = none))) :
    (getPredictions wifi s status response ps).1 = ps := by
  cases wifi with
  | false => rfl
  | true =>
    obtain ⟨t?, h?, g⟩ := s
    cases t? with
    | none => rfl
    | some t =>
      cases h? with
      | none => rfl
      | some h =>
        rcases hfail with hw | ht | hh | hst | hm | hk
        · exact absurd hw (by simp)
        · exact absurd ht (by simp)
        · exact absurd hh (by simp)
        · have : ¬(0 < status) := not_lt.mpr hst
          simp [getPredictions, this]
        · have hnone : extractTexts response = none :=
            extractTexts_none_of_missing response (Or.inl hm)
          by_cases hpos : 0 < status
          · simp [getPredictions, hpos, applyResponse, hnone]
          · simp [getPredictions, hpos]
        · have hnone : extractTexts response = none :=
            extractTexts_none_of_missing response (Or.inr hk)
          by_cases hpos : 0 < status
          · simp [getPredictions, hpos, applyResponse, hnone]
          · simp [getPredictions, hpos]

/-- C6: every cycle that reaches the POST sends method `POST` with
header `Content-Type: application/json` to the configured endpoint,
and — whenever the formatted text fits the 128-byte `snprintf`
buffer, as any in-range reading does — the body is exactly
`{"temperature": T, "humidity": H, "aqi": A}` with the two climate
readings formatted to two decimals and the raw integer gas reading. -/
theorem outbound_request_shape (wifi : Bool) (s : SensorSample) (status : Int)
    (response : List Char) (ps : PredictionState) (req : HttpRequest) (t h : ℚ)
    (ht : s.temperature = some t) (hh : s.humidity = some h)
    (hsent : (getPredictions wifi s status response ps).2 = some req)
    (hlen : (jsonPayloadFull t h s.gasRaw).length ≤ 127) :
    req.method = "POST" ∧ req.contentType = "application/json" ∧
    req.url = API_ENDPOINT ∧ req.body = jsonPayloadFull t h s.gasRaw := by
  have hbody : jsonPayload t h s.gasRaw = jsonPayloadFull t h s.gasRaw := by
    have hlen2 : (jsonPayloadFull t h s.gasRaw).toList.length ≤ 127 := hlen
    unfold jsonPayload
    rw [List.take_of_length_le hlen2]
    rfl
  cases wifi with
  | false => exact absurd hsent (by simp [getPredictions])
  | true =>
    have hreq :
        (getPredictions true s status response ps).2 =
          some { url := API_ENDPOINT, method := "POST",
                 contentType := "application/json",
                 body := jsonPayload t h s.gasRaw } := by
      simp only [getPredictions, ht, hh, if_true]
      split <;> rfl
    rw [hreq] at hsent
    obtain rfl : _ = req := Option.some.inj hsent
    exact ⟨rfl, rfl, rfl, hbody⟩

/-- C6 witness: the canonical cycle with readings 25 °C / 60 % and raw
gas 500. -/
theorem outbound_request_shape_witness :
    reqCanonical.method = "POST" ∧
    reqCanonical.contentType = "application/json" ∧
    reqCanonical.url = API_ENDPOINT ∧
    reqCanonical.body = jsonPayloadFull 25 60 500 :=
  outbound_request_shape true sampleOk 200 canonicalBody psZero reqCanonical 25 60
    rfl rfl rfl
    (by
      have e1 : fmtFixed 2 (25 : ℚ) = "25.00" := by
        rw [fmtFixed_eval 2 2500 25 (by norm_num) (by norm_num)]
        decide
      have e2 : fmtFixed 2 (60 : ℚ) = "60.00" := by
        rw [fmtFixed_eval 2 6000 60 (by norm_num) (by norm_num)]
        decide
      show (jsonPayloadFull 25 60 500).length ≤ 127
      rw [jsonPayloadFull, e1, e2]
      decide)

/-- C10: a positive status whose body contains the marker and all
three key substrings commits unconditionally — the three fields are
overwritten with `toFloat` of whatever text was cut out, and
`predictionAvailable` is set, even when that text parses as no number
at all (`toFloat` then yields 0): "found and parsed" is in fact only
"found". -/
theorem key_presence_commits (s : SensorSample) (t h : ℚ) (status : Int)
    (response : List Char) (ps : PredictionState) (p : Nat)
    (ht : s.temperature = some t) (hhum : s.humidity = some h) (hst : 0 < status)
    (hm : indexOfFrom response markerKey 0 = some p)
    (ha : indexOfFrom (response.drop p) aqiKey 0 ≠ none)
    (hhk : indexOfFrom (response.drop p) humidityKey 0 ≠ none)
    (htk : indexOfFrom (response.drop p) temperatureKey 0 ≠ none) :
    ((getPredictions true s status response ps).1.predictionAvailable = true ∧
     ∀ a b c, extractTexts response = some (a, b, c) →
       (getPredictions true s status response ps).1 =
         { predictedAQI := toFloatA a, predictedHumidity := toFloatA b,
           predictedTemperature := toFloatA c, predictionAvailable := true }) ∧
    toFloatA "oops".toList = 0 := by
  obtain ⟨ai, hai⟩ := Option.ne_none_iff_exists'.mp ha
  obtain ⟨bi, hbi⟩ := Option.ne_none_iff_exists'.mp hhk
  obtain ⟨ci, hci⟩ := Option.ne_none_iff_exists'.mp htk
  have hred : (getPredictions true s status response ps).1 =
      applyResponse response ps := by
    simp only [getPredictions, ht, hhum, if_true]
    rw [if_pos hst]
  have hex : ∃ a b c, extractTexts response = some (a, b, c) := by
    simp only [extractTexts, hm, hai, hbi, hci]
    exact ⟨_, _, _, rfl⟩
  obtain ⟨a0, b0, c0, hex0⟩ := hex
  have happ : applyResponse response ps =
      { predictedAQI := toFloatA a0, predictedHumidity := toFloatA b0,
        predictedTemperature := toFloatA c0, predictionAvailable := true } := by
    simp only [applyResponse, hex0]
  refine ⟨⟨?_, ?_⟩, ?_⟩
  · rw [hred, happ]
  · intro a b c hcab
    rw [hex0] at hcab
    obtain ⟨rfl, rfl, rfl⟩ : a0 = a ∧ b0 = b ∧ c0 = c := by
      have := Option.some.inj hcab
      simp_all
    rw [hred, happ]
  · rw [toFloatA_eval_none _ (by decide)]

/-- C10 witness: the canonical body with `oops` in place of the aqi
number still commits, storing 0 for the aqi field. -/
theorem key_presence_commits_witness :
    (getPredictions true sampleOk 200 nonNumericBody psStale).1 =
      { predictedAQI := 0, predictedHumidity := 7321 / 100,
        predictedTemperature := 3171 / 100, predictionAvailable := true } := by
  have H := key_presence_commits sampleOk 25 60 200 nonNumericBody psStale 1
    rfl rfl (by norm_num) (by decide) (by decide) (by decide) (by decide)
  have hstate := H.1.2 "oops".toList "73.21".toList "31.71".toList (by decide)
  rw [hstate]
  have e1 : toFloatA "oops".toList = 0 := H.2
  have e2 : toFloatA "73.21".toList = 7321 / 100 := by
    rw [toFloatA_eval_pos _ 7321 2 (by decide)]
    norm_num
  have e3 : toFloatA "31.71".toList = 3171 / 100 := by
    rw [toFloatA_eval_pos _ 3171 2 (by decide)]
    norm_num
  rw [e1, e2, e3]

/-- C1 witness: the spec's own example — the canonical body with the
`aqi` field missing leaves a stale committed state untouched. -/
theorem getPredictions_atomic_on_failure_witness :
    (getPredictions true sampleOk 200 missingAqiBody psStale).1 = psStale :=
  getPredictions_atomic_on_failure true sampleOk 200 missingAqiBody psStale
    (Or.inr (Or.inr (Or.inr (Or.inr (Or.inr
      ⟨1, by decide, Or.inl (by decide)⟩)))))

/-- C5: when either climate reading is NaN the dashboard substitutes
0 for both and serves the page computed from those zeros (temperature
renders as the text `0.0`), while the prediction client aborts
without issuing any request and leaves the prediction state
unchanged. -/
theorem nan_sensor_handling (input : List Char) (s : SensorSample)
    (ps : PredictionState) (wifi : Bool) (status : Int) (response : List Char)
    (hnan : s.temperature = none ∨ s.humidity = none) :
    (handleClient input s ps).2 =
      (handleClient input ⟨some 0, some 0, s.gasRaw⟩ ps).2 ∧
    fmtFixed 1 0 = "0.0" ∧
    Emit.text "0.0" ∈ (handleClient input s ps).2 ∧
    getPredictions wifi s status response ps = (ps, none) := by
  have hf : fmtFixed 1 (0 : ℚ) = "0.0" := by
    rw [fmtFixed_eval 1 0 0 le_rfl (by norm_num)]
    decide
  obtain ⟨t?, h?, g⟩ := s
  have hzero :
      (handleClient input ⟨t?, h?, g⟩ ps).2 =
        (handleClient input ⟨some 0, some 0, g⟩ ps).2 := by
    rcases hnan with h | h
    · obtain rfl : t? = none := h
      simp [handleClient, dashboardDoc]
    · obtain rfl : h? = none := h
      simp [handleClient, dashboardDoc]
  refine ⟨hzero, hf, ?_, ?_⟩
  · rw [hzero]
    have : Emit.text "0.0" = Emit.text (fmtFixed 1 (0 : ℚ)) := by rw [hf]
    rw [this]
    simp [handleClient, dashboardDoc, httpHeaderLines]
  · rcases hnan with h | h
    · obtain rfl : t? = none := h
      cases wifi <;> rfl
    · obtain rfl : h? = none := h
      cases wifi <;> cases t? <;> rfl

/-- C5 witness: a NaN temperature sample at concrete inputs. -/
theorem nan_sensor_handling_witness :
    (handleClient [] sampleNaN psZero).2 =
      (handleClient [] ⟨some 0, some 0, 400⟩ psZero).2 ∧
    fmtFixed 1 0 = "0.0" ∧
    Emit.text "0.0" ∈ (handleClient [] sampleNaN psZero).2 ∧
    getPredictions true sampleNaN 200 [] psZero = (psZero, none) :=
  nan_sensor_handling [] sampleNaN psZero true 200 [] (Or.inl rfl)

/-- C2: with a positive status and the canonical response body
`{"next_day_predictions":{"aqi":104.18,"humidity":73.21,"temperature":31.71}}`,
the extraction sets `predictedAQI` to 104.18, `predictedHumidity` to
73.21, `predictedTemperature` to 31.71 and `predictionAvailable` to
true, whatever the prior state. -/
theorem getPredictions_canonical_extraction (ps : PredictionState) :
    (getPredictions true sampleOk 200 canonicalBody ps).1 =
      { predictedAQI := 10418 / 100
        predictedHumidity := 7321 / 100
        predictedTemperature := 3171 / 100
        predictionAvailable := true } := by
  have hextract : extractTexts canonicalBody =
      some ("104.18".toList, "73.21".toList, "31.71".toList) := by decide
  have e1 : toFloatA "104.18".toList = 10418 / 100 := by
    rw [toFloatA_eval_pos _ 10418 2 (by decide)]
    norm_num
  have e2 : toFloatA "73.21".toList = 7321 / 100 := by
    rw [toFloatA_eval_pos _ 7321 2 (by decide)]
    norm_num
  have e3 : toFloatA "31.71".toList = 3171 / 100 := by
    rw [toFloatA_eval_pos _ 3171 2 (by decide)]
    norm_num
  have h1 : (getPredictions true sampleOk 200 canonicalBody ps).1 =
      applyResponse canonicalBody ps := rfl
  rw [h1]
  unfold applyResponse
  rw [hextract]
  show ({ predictedAQI := toFloatA "104.18".toList
          predictedHumidity := toFloatA "73.21".toList
          predictedTemperature := toFloatA "31.71".toList
          predictionAvailable := true } : PredictionState) = _
  rw [e1, e2, e3]

/-- C4: `interpretAirQuality` is a pure total function of one rational
input with the fixed thresholds 150/300/450/600 separating the five
labels, and the rendering applies this same classifier both to the
live raw gas reading and to the predicted AQI value. -/
theorem interpretAirQuality_thresholds (x : ℚ) (input : List Char)
    (s : SensorSample) (ps : PredictionState) :
    (x < 150 → interpretAirQuality x = "Excellent") ∧
    (150 ≤ x → x < 300 → interpretAirQuality x = "Good") ∧
    (300 ≤ x → x < 450 → interpretAirQuality x = "Fair") ∧
    (450 ≤ x → x < 600 → interpretAirQuality x = "Poor") ∧
    (600 ≤ x → interpretAirQuality x = "Very Poor") ∧
    interpretAirQuality x ∈ ["Excellent", "Good", "Fair", "Poor", "Very Poor"] ∧
    Emit.text (interpretAirQuality (s.gasRaw : ℚ)) ∈ (handleClient input s ps).2 ∧
    (ps.predictionAvailable = true →
      Emit.text (interpretAirQuality ps.predictedAQI) ∈ (handleClient input s ps).2) := by
  refine ⟨?_, ?_, ?_, ?_, ?_, ?_, ?_, ?_⟩
  · intro h1
    unfold interpretAirQuality
    split_ifs <;> first | rfl | linarith
  · intro h1 h2
    unfold interpretAirQuality
    split_ifs <;> first | rfl | linarith
  · intro h1 h2
    unfold interpretAirQuality
    split_ifs <;> first | rfl | linarith
  · intro h1 h2
    unfold interpretAirQuality
    split_ifs <;> first | rfl | linarith
  · intro h1
    unfold interpretAirQuality
    split_ifs <;> first | rfl | linarith
  · unfold interpretAirQuality
    split_ifs <;> simp
  · simp [handleClient, dashboardDoc, httpHeaderLines]
  · intro hav
    simp [handleClient, dashboardDoc, httpHeaderLines, hav]

/-- C4 witness: one representative input per label, and the live
reading's label rendered on a concrete page. -/
theorem interpretAirQuality_thresholds_witness :
    interpretAirQuality 0 = "Excellent" ∧ interpretAirQuality 200 = "Good" ∧
    interpretAirQuality 350 = "Fair" ∧ interpretAirQuality 500 = "Poor" ∧
    interpretAirQuality 650 = "Very Poor" ∧
    Emit.text (interpretAirQuality ((500 : Int) : ℚ)) ∈
      (handleClient [] sampleOk psZero).2 :=
  ⟨(interpretAirQuality_thresholds 0 [] sampleOk psZero).1 (by norm_num),
   (interpretAirQuality_thresholds 200 [] sampleOk psZero).2.1 (by norm_num) (by norm_num),
   (interpretAirQuality_thresholds 350 [] sampleOk psZero).2.2.1 (by norm_num) (by norm_num),
   (interpretAirQuality_thresholds 500 [] sampleOk psZero).2.2.2.1 (by norm_num) (by norm_num),
   (interpretAirQuality_thresholds 650 [] sampleOk psZero).2.2.2.2.1 (by norm_num),
   (interpretAirQuality_thresholds 0 [] sampleOk psZero).2.2.2.2.2.2.1⟩

/-- C7: every accepted connection — whatever the request bytes, and
whether or not the `\r\n\r\n` terminator ever arrives — is answered
with `HTTP/1.1 200 OK`, the `Content-Type: text/html; charset=UTF-8`
and `Connection: close` headers, the full dashboard document (a
function of the sensor sample and prediction state alone), and a
close; no other response variant exists. -/
theorem handleClient_uniform_response (input input2 : List Char)
    (s : SensorSample) (ps : PredictionState) :
    (handleClient input s ps).2 =
      Emit.text "HTTP/1.1 200 OK" ::
        Emit.text "Content-Type: text/html; charset=UTF-8" ::
          Emit.text "Connection: close" :: Emit.text "" ::
            (dashboardDoc s ps ++ [Emit.close]) ∧
    (handleClient input s ps).2 = (handleClient input2 s ps).2 :=
  ⟨rfl, rfl⟩

/-- C9: `handleClient` only reads the prediction globals: every
invocation returns all four fields of the prediction state exactly as
they were. -/
theorem handleClient_frame (input : List Char) (s : SensorSample)
    (ps : PredictionState) :
    (handleClient input s ps).1 = ps ∧
    (handleClient input s ps).1.predictedAQI = ps.predictedAQI ∧
    (handleClient input s ps).1.predictedHumidity = ps.predictedHumidity ∧
    (handleClient input s ps).1.predictedTemperature = ps.predictedTemperature ∧
    (handleClient input s ps).1.predictionAvailable = ps.predictionAvailable :=
  ⟨rfl, rfl, rfl, rfl, rfl⟩

/-- C3 counterexample: with the fields reordered so that `temperature`
comes first, the code's cut for temperature runs to the first closing
brace — past two commas — and therefore differs from the "next comma
or closing brace, whichever occurs first" rule, which would cut at
the first comma. -/
theorem extraction_delimiter_counterexample :
    indexOfFrom reorderedBody markerKey 0 = some 1 ∧
    indexOfFrom (reorderedBody.drop 1) temperatureKey 0 = some 24 ∧
    (extractTexts reorderedBody).map (fun x => x.2.2) =
      some ("31.71,\"aqi\":104.18,\"humidity\":73.21".toList) ∧
    trimA (fieldTextFirstDelim (reorderedBody.drop 1) 38) = "31.71".toList ∧
    (extractTexts reorderedBody).map (fun x => x.2.2) ≠
      some (trimA (fieldTextFirstDelim (reorderedBody.drop 1) 38)) := by
  decide

/-- C3 amended: when the marker and all three keys are found, the cut
texts are characterised as follows — for `aqi` and `humidity`,
everything up to the first comma after the key if any comma follows,
else up to the first closing brace if any follows, else to the end of
the section; for `temperature` the same with the roles of comma and
closing brace swapped; each text is whitespace-trimmed, and the
committed values are the float parses of exactly these texts. -/
theorem extractTexts_characterisation (response : List Char)
    (p aqiIndex humidityIndex temperatureIndex : Nat)
    (hm : indexOfFrom response markerKey 0 = some p)
    (ha : indexOfFrom (response.drop p) aqiKey 0 = some aqiIndex)
    (hh : indexOfFrom (response.drop p) humidityKey 0 = some humidityIndex)
    (ht : indexOfFrom (response.drop p) temperatureKey 0 = some temperatureIndex) :
    extractTexts response = some
      (trimA (specTextTwo ',' '\x7d' (response.drop p) (aqiIndex + 6)),
       trimA (specTextTwo ',' '\x7d' (response.drop p) (humidityIndex + 11)),
       trimA (specTextTwo '\x7d' ',' (response.drop p) (temperatureIndex + 14))) ∧
    ∀ ps, applyResponse response ps =
      { predictedAQI :=
          toFloatA (trimA (specTextTwo ',' '\x7d' (response.drop p) (aqiIndex + 6)))
        predictedHumidity :=
          toFloatA (trimA (specTextTwo ',' '\x7d' (response.drop p) (humidityIndex + 11)))
        predictedTemperature :=
          toFloatA (trimA (specTextTwo '\x7d' ',' (response.drop p) (temperatureIndex + 14)))
        predictionAvailable := true } := by
  have hex : extractTexts response = some
      (trimA (specTextTwo ',' '\x7d' (response.drop p) (aqiIndex + 6)),
       trimA (specTextTwo ',' '\x7d' (response.drop p) (humidityIndex + 11)),
       trimA (specTextTwo '\x7d' ',' (response.drop p) (temperatureIndex + 14))) := by
    simp only [extractTexts, hm, ha, hh, ht]
    rw [substrA_endAfter (response.drop p) ',' '\x7d' (aqiIndex + 6),
        substrA_endAfter (response.drop p) ',' '\x7d' (humidityIndex + 11),
        substrA_endAfter (response.drop p) '\x7d' ',' (temperatureIndex + 14)]
  refine ⟨hex, fun ps => ?_⟩
  simp only [applyResponse, hex]

/-- C3 amendment witness: on the canonical body the characterised
texts are exactly the three numbers. -/
theorem extractTexts_characterisation_witness :
    extractTexts canonicalBody = some
      (trimA (specTextTwo ',' '\x7d' (canonicalBody.drop 1) 30),
       trimA (specTextTwo ',' '\x7d' (canonicalBody.drop 1) 48),
       trimA (specTextTwo '\x7d' ',' (canonicalBody.drop 1) 68)) :=
  (extractTexts_characterisation canonicalBody 1 24 37 54
    (by decide) (by decide) (by decide) (by decide)).1

/-- C8 counterexample: a link that never associates is polled 21 times
inside the retry loop and once more by the final check — 22 status
queries, not at most 20 — before the attempt gives up without
starting the server. -/
theorem connect_poll_count_counterexample :
    connectToWiFi (fun _ => false) =
      { statusPolls := 22, delaysUsed := 20, serverStarted := false } ∧
    ¬((connectToWiFi (fun _ => false)).statusPolls ≤ 20) := by
  decide

/-- C8 amended: `connectToWiFi` always terminates after at most 22
link-status queries, waiting at most 20 one-second delays (≈ 20 s),
and starts the listening socket iff the final status query after the
loop reports the link connected. -/
theorem connectToWiFi_bounded (st : Nat → Bool) :
    (connectToWiFi st).statusPolls ≤ 22 ∧
    (connectToWiFi st).delaysUsed ≤ 20 ∧
    (connectToWiFi st).serverStarted =
      st ((connectToWiFi st).statusPolls - 1) := by
  have h := wifiLoop_le st 20 0
  have h1 : (connectToWiFi st).statusPolls = wifiLoop st 0 20 + 1 := rfl
  have h2 : (connectToWiFi st).delaysUsed = wifiLoop st 0 20 - 1 := rfl
  have h3 : (connectToWiFi st).serverStarted = st (wifiLoop st 0 20) := rfl
  rw [h1, h2, h3]
  refine ⟨by omega, by omega, ?_⟩
  simp

end ClimeScope
